import Mathlib

/- Verification of the AlertCare silent-deterioration detection pipeline.
   Sensor values and scores are modelled as real numbers; timestamps are
   modelled as rational numbers measured in hours. -/

namespace AlertCare

/-- Model of numpy.clip applied to a single value: values below lo are raised
to lo, values above hi are lowered to hi. -/
noncomputable def npClip (x lo hi : ℝ) : ℝ := min hi (max lo x)

/-- From src/ml/scoring/stability_scorer.py: fuses outputs from both detection
layers into a single Health Stability Score. -/
structure HealthStabilityScorer where
  isolation_weight : ℝ
  lstm_weight : ℝ

/-- The default constructor arguments of HealthStabilityScorer.__init__
(isolation_weight=0.4, lstm_weight=0.6). -/
noncomputable def defaultScorer : HealthStabilityScorer := ⟨0.4, 0.6⟩

/-- HealthStabilityScorer.calculate_score: clip both score arrays to [0,100]
and form the weighted elementwise sum. -/
noncomputable def HealthStabilityScorer.calculate_score
    (sc : HealthStabilityScorer) (isolation_scores lstm_scores : List ℝ) :
    List ℝ :=
  List.zipWith
    (fun i l => sc.isolation_weight * npClip i 0 100 + sc.lstm_weight * npClip l 0 100)
    isolation_scores lstm_scores

/-- HealthStabilityScorer.interpret_score: convert a score to a risk category. -/
noncomputable def HealthStabilityScorer.interpret_score
    (_sc : HealthStabilityScorer) (score : ℝ) : String :=
  if 90 ≤ score then "Stable"
  else if 70 ≤ score then "Early Instability"
  else if 50 ≤ score then "Sustained Deterioration"
  else "High-Risk Decline"

lemma npClip_nonneg (x : ℝ) : 0 ≤ npClip x 0 100 := by
  unfold npClip
  exact le_min (by norm_num) (le_max_left 0 x)

lemma npClip_le_100 (x : ℝ) : npClip x 0 100 ≤ 100 := min_le_left _ _

lemma npClip_of_mem (x : ℝ) (h0 : 0 ≤ x) (h1 : x ≤ 100) : npClip x 0 100 = x := by
  unfold npClip
  rw [max_eq_right h0, min_eq_right h1]

lemma fuse_mem (x y : ℝ) :
    0 ≤ 0.4 * npClip x 0 100 + 0.6 * npClip y 0 100 ∧
      0.4 * npClip x 0 100 + 0.6 * npClip y 0 100 ≤ 100 := by
  constructor
  · have h1 := npClip_nonneg x
    have h2 := npClip_nonneg y
    nlinarith
  · have h1 := npClip_le_100 x
    have h2 := npClip_le_100 y
    have h3 := npClip_nonneg x
    have h4 := npClip_nonneg y
    nlinarith

lemma calculate_score_forall_mem (a b : List ℝ) :
    (defaultScorer.calculate_score a b).Forall (fun s => 0 ≤ s ∧ s ≤ 100) := by
  induction a generalizing b with
  | nil => simp [HealthStabilityScorer.calculate_score]
  | cons x xs ih =>
    cases b with
    | nil => simp [HealthStabilityScorer.calculate_score]
    | cons y ys =>
      have hx := fuse_mem x y
      have hrest := ih ys
      simpa [HealthStabilityScorer.calculate_score, List.Forall] using ⟨hx, hrest⟩

/-- C1: calculate_score is exactly the elementwise sum
0.4 * clip(a,0,100) + 0.6 * clip(b,0,100); every fused score lies in [0,100];
on in-range inputs it is the linear map 0.4 a + 0.6 b; and an out-of-range
input of -10 is clipped to 0 before weighting. -/
theorem C1_score_fusion (a b : List ℝ) (x y : ℝ)
    (hx0 : 0 ≤ x) (hx1 : x ≤ 100) (hy0 : 0 ≤ y) (hy1 : y ≤ 100) :
    defaultScorer.calculate_score a b =
      List.zipWith (fun i l => 0.4 * npClip i 0 100 + 0.6 * npClip l 0 100) a b
    ∧ (defaultScorer.calculate_score a b).Forall (fun s => 0 ≤ s ∧ s ≤ 100)
    ∧ defaultScorer.calculate_score [x] [y] = [0.4 * x + 0.6 * y]
    ∧ defaultScorer.calculate_score [(-10 : ℝ)] [y] = [0.4 * 0 + 0.6 * y] := by
  refine ⟨rfl, calculate_score_forall_mem a b, ?_, ?_⟩
  · simp [HealthStabilityScorer.calculate_score, defaultScorer,
      npClip_of_mem x hx0 hx1, npClip_of_mem y hy0 hy1]
  · have hneg : npClip (-10 : ℝ) 0 100 = 0 := by
      unfold npClip
      rw [max_eq_left (by norm_num), min_eq_right (by norm_num)]
    simp [HealthStabilityScorer.calculate_score, defaultScorer, hneg,
      npClip_of_mem y hy0 hy1]

/-- Witness for C1 at concrete inputs. -/
theorem C1_score_fusion_witness :
    defaultScorer.calculate_score [150] [-5] =
      List.zipWith (fun i l => 0.4 * npClip i 0 100 + 0.6 * npClip l 0 100) [150] [-5]
    ∧ (defaultScorer.calculate_score [150] [-5]).Forall (fun s => 0 ≤ s ∧ s ≤ 100)
    ∧ defaultScorer.calculate_score [30] [60] = [0.4 * 30 + 0.6 * 60]
    ∧ defaultScorer.calculate_score [(-10 : ℝ)] [60] = [0.4 * 0 + 0.6 * 60] :=
  C1_score_fusion [150] [-5] 30 60 (by norm_num) (by norm_num) (by norm_num)
    (by norm_num)

/-- C2: for scores in [0,100], interpret_score realises the four-tier partition
with boundaries inclusive at the lower bound of each higher tier, always
returning one of the four category strings; interpret_score(90) = "Stable" and
interpret_score(89.999) = "Early Instability". -/
theorem C2_interpret_partition (s : ℝ) (h0 : 0 ≤ s) (h1 : s ≤ 100) :
    (90 ≤ s → defaultScorer.interpret_score s = "Stable")
    ∧ (70 ≤ s → s < 90 → defaultScorer.interpret_score s = "Early Instability")
    ∧ (50 ≤ s → s < 70 → defaultScorer.interpret_score s = "Sustained Deterioration")
    ∧ (s < 50 → defaultScorer.interpret_score s = "High-Risk Decline")
    ∧ defaultScorer.interpret_score s ∈
        ["Stable", "Early Instability", "Sustained Deterioration", "High-Risk Decline"]
    ∧ defaultScorer.interpret_score (90 : ℝ) = "Stable"
    ∧ defaultScorer.interpret_score (89.999 : ℝ) = "Early Instability" := by
  unfold HealthStabilityScorer.interpret_score
  refine ⟨?_, ?_, ?_, ?_, ?_, ?_, ?_⟩
  · intro h; simp [h]
  · intro h h'
    rw [if_neg (by linarith), if_pos h]
  · intro h h'
    rw [if_neg (by linarith), if_neg (by linarith), if_pos h]
  · intro h
    rw [if_neg (by linarith), if_neg (by linarith), if_neg (by linarith)]
  · split
    · simp
    · split
      · simp
      · split
        · simp
        · simp
  · norm_num
  · norm_num

/-- Witness for C2 at the concrete score 75. -/
theorem C2_interpret_partition_witness :
    ((90 : ℝ) ≤ 75 → defaultScorer.interpret_score 75 = "Stable")
    ∧ ((70 : ℝ) ≤ 75 → (75 : ℝ) < 90 →
        defaultScorer.interpret_score 75 = "Early Instability")
    ∧ ((50 : ℝ) ≤ 75 → (75 : ℝ) < 70 →
        defaultScorer.interpret_score 75 = "Sustained Deterioration")
    ∧ ((75 : ℝ) < 50 → defaultScorer.interpret_score 75 = "High-Risk Decline")
    ∧ defaultScorer.interpret_score 75 ∈
        ["Stable", "Early Instability", "Sustained Deterioration", "High-Risk Decline"]
    ∧ defaultScorer.interpret_score (90 : ℝ) = "Stable"
    ∧ defaultScorer.interpret_score (89.999 : ℝ) = "Early Instability" :=
  C2_interpret_partition 75 (by norm_num) (by norm_num)

/-- One inbound sensor reading (src/ml/api/services/prediction_service.py).
`timestamp` is measured in hours; `none` models a missing field / NaN. -/
structure SensorReading where
  timestamp : Option ℚ
  bloodPressure : Option ℝ
  bloodGlucose : Option ℝ
  heartRate : Option ℝ
  activity : Option ℝ

/-- The list of parsed timestamps of a request, in hours. -/
def requestTimestamps (readings : List SensorReading) : List ℚ :=
  readings.filterMap (fun r => r.timestamp)

/-- The time span in hours between the first and last timestamp. -/
def requestTimeSpan (readings : List SensorReading) : ℚ :=
  (requestTimestamps readings).getLastD 0 - (requestTimestamps readings).headD 0

/-- validate_rolling_window from prediction_service.py: checks count, presence
and order of timestamps and the overall time span against min_hours.
A reading with a missing timestamp raises inside the try block, which is
caught and reported as an invalid-timestamp rejection. -/
def validate_rolling_window (readings : List SensorReading) (min_hours : ℚ) :
    Bool × Option String :=
  if readings.length < 2 then (false, some "Need at least 2 readings")
  else if readings.any (fun r => r.timestamp.isNone) then
    (false, some "Invalid timestamp format")
  else if (requestTimestamps readings).insertionSort (fun a b => a ≤ b) ≠
      requestTimestamps readings then
    (false, some "Readings must be in chronological order")
  else if requestTimeSpan readings < min_hours then
    (false, some "Insufficient hours of data")
  else if readings.any (fun r => r.timestamp.isNone) then
    (false, some "Reading missing required field: timestamp")
  else (true, none)

lemma insertionSort_le_eq_iff (l : List ℚ) :
    l.insertionSort (fun a b => a ≤ b) = l ↔ List.Chain' (· ≤ ·) l := by
  rw [List.chain'_iff_pairwise]
  constructor
  · intro h
    have := List.sorted_insertionSort (fun a b : ℚ => a ≤ b) l
    rw [h] at this
    exact this
  · intro h
    exact List.Sorted.insertionSort_eq h

/-- A two-reading input whose timestamps are 0 and 100 hours. -/
def readingsSpan100 : List SensorReading :=
  [⟨some 0, none, none, none, none⟩, ⟨some 100, none, none, none, none⟩]

/-- A two-reading input whose timestamps are 0 and 168 hours. -/
def readingsSpan168 : List SensorReading :=
  [⟨some 0, none, none, none, none⟩, ⟨some 168, none, none, none, none⟩]

lemma validate_span100_reject :
    (validate_rolling_window readingsSpan100 168).1 = false := by
  norm_num [validate_rolling_window, readingsSpan100, requestTimestamps,
    requestTimeSpan, List.insertionSort, List.orderedInsert,
    List.filterMap_cons, List.getLastD, List.headD]

lemma validate_span168_ok :
    (validate_rolling_window readingsSpan168 168).1 = true := by
  norm_num [validate_rolling_window, readingsSpan168, requestTimestamps,
    requestTimeSpan, List.insertionSort, List.orderedInsert,
    List.filterMap_cons, List.getLastD, List.headD]

/-- C7: validate_rolling_window accepts exactly when there are at least two
readings, every reading carries a timestamp, the timestamps are
non-decreasing, and the span from first to last timestamp is at least
min_hours; a 100-hour span is rejected at min_hours = 168 while an exact
168-hour span is accepted. -/
theorem C7_rolling_window_validator (readings : List SensorReading) (min_hours : ℚ) :
    ((validate_rolling_window readings min_hours).1 = true ↔
      (2 ≤ readings.length
        ∧ (∀ r ∈ readings, r.timestamp.isSome = true)
        ∧ List.Chain' (· ≤ ·) (requestTimestamps readings)
        ∧ min_hours ≤ requestTimeSpan readings))
    ∧ (validate_rolling_window readingsSpan100 168).1 = false
    ∧ (validate_rolling_window readingsSpan168 168).1 = true := by
  refine ⟨?_, ?_, ?_⟩
  · unfold validate_rolling_window
    split_ifs with h1 h2 h3 h4 h5
    · rw [false_iff]
      rintro ⟨hlen, -⟩; omega
    · rw [false_iff]
      rintro ⟨-, hall, -⟩
      rw [List.any_eq_true] at h2
      obtain ⟨r, hr, hnone⟩ := h2
      have hs := hall r hr
      rw [Option.isNone_iff_eq_none] at hnone
      rw [hnone] at hs
      cases hs
    · rw [false_iff]
      rintro ⟨-, -, hchain, -⟩
      exact h3 ((insertionSort_le_eq_iff _).mpr hchain)
    · rw [false_iff]
      rintro ⟨-, -, -, hspan⟩
      exact absurd hspan (not_le.mpr h4)
    · constructor
      · intro _
        refine ⟨by omega, ?_, ?_, ?_⟩
        · intro r hr
          by_contra hns
          apply h2
          rw [List.any_eq_true]
          refine ⟨r, hr, ?_⟩
          rw [Option.isNone_iff_eq_none, ← Option.not_isSome_iff_eq_none]
          simpa using hns
        · push_neg at h3
          exact (insertionSort_le_eq_iff _).mp h3
        · exact le_of_not_lt h4
      · intro _; rfl
  · exact validate_span100_reject
  · exact validate_span168_ok

/-- Raw sensor frame handed to the ML pipeline: a rectangular frame of n rows;
each channel maps a row index to its (possibly missing) value, and every row
carries a timestamp in hours. -/
structure RawData where
  n : ℕ
  timestamps : ℕ → ℚ
  blood_pressure : ℕ → Option ℝ
  blood_glucose : ℕ → Option ℝ
  heart_rate : ℕ → Option ℝ
  activity : ℕ → Option ℝ

/-- Row indices of the trailing window of width w ending at row i. -/
def windowIdx (w i : ℕ) : List ℕ := (List.range (i + 1)).drop (i + 1 - w)

/-- The non-missing observations inside the trailing window. -/
def windowVals (f : ℕ → Option ℝ) (w i : ℕ) : List ℝ := (windowIdx w i).filterMap f

noncomputable def listMean (xs : List ℝ) : ℝ := xs.sum / xs.length

/-- Largest element of a list (0 for the empty list). -/
noncomputable def listMax : List ℝ → ℝ
  | [] => 0
  | x :: xs => xs.foldl max x

/-- Smallest element of a list (0 for the empty list). -/
noncomputable def listMin : List ℝ → ℝ
  | [] => 0
  | x :: xs => xs.foldl min x

/-- Sample standard deviation (ddof = 1), as used by pandas rolling std. -/
noncomputable def sampleStd (xs : List ℝ) : ℝ :=
  Real.sqrt ((xs.map (fun x => (x - listMean xs) ^ 2)).sum / ((xs.length : ℝ) - 1))

/-- data[col].rolling(window, min_periods=1).std(): produces a value once the
window holds at least two observations (the sample std of one point is NaN). -/
noncomputable def rollingStd (f : ℕ → Option ℝ) (w n : ℕ) : List (Option ℝ) :=
  (List.range n).map (fun i =>
    if 2 ≤ (windowVals f w i).length then some (sampleStd (windowVals f w i)) else none)

/-- rolling(window, min_periods=1).apply(lambda x: x.max() - x.min() ...). -/
noncomputable def rollingRange (f : ℕ → Option ℝ) (w n : ℕ) : List (Option ℝ) :=
  (List.range n).map (fun i =>
    if 1 ≤ (windowVals f w i).length then
      some (listMax (windowVals f w i) - listMin (windowVals f w i)) else none)

/-- data[col].rolling(window, min_periods=1).mean(). -/
noncomputable def rollingMean (f : ℕ → Option ℝ) (w n : ℕ) : List (Option ℝ) :=
  (List.range n).map (fun i =>
    if 1 ≤ (windowVals f w i).length then some (listMean (windowVals f w i)) else none)

/-- Elementwise std / (mean + 1e-6); a missing operand propagates as in pandas. -/
noncomputable def cvColumn (stdCol meanCol : List (Option ℝ)) : List (Option ℝ) :=
  List.zipWith (fun s m =>
    match s, m with
    | some sv, some mv => some (sv / (mv + 1e-6))
    | _, _ => none) stdCol meanCol

/-- data[a].rolling(168).corr(data[b]): Pearson correlation over the trailing
window, requiring a full window of paired observations; an undefined ratio
(zero variance) is NaN. -/
noncomputable def rollingCorr (f g : ℕ → Option ℝ) (w n : ℕ) : List (Option ℝ) :=
  (List.range n).map (fun i =>
    let pairs := (windowIdx w i).filterMap (fun j =>
      match f j, g j with
      | some a, some b => some (a, b)
      | _, _ => none)
    if pairs.length < w then none
    else
      let xs := pairs.map Prod.fst
      let ys := pairs.map Prod.snd
      let num := ((xs.zip ys).map (fun p => (p.1 - listMean xs) * (p.2 - listMean ys))).sum
      let den := Real.sqrt ((xs.map (fun x => (x - listMean xs) ^ 2)).sum) *
        Real.sqrt ((ys.map (fun y => (y - listMean ys) ^ 2)).sum)
      if den = 0 then none else some (num / den))

def ffillAux (acc : Option ℝ) : List (Option ℝ) → List (Option ℝ)
  | [] => []
  | o :: rest =>
    match o with
    | some v => some v :: ffillAux (some v) rest
    | none => acc :: ffillAux acc rest

/-- pandas Series.ffill: propagate the last seen observation forward. -/
def ffill (l : List (Option ℝ)) : List (Option ℝ) := ffillAux none l

/-- pandas Series.bfill: propagate the next observation backward. -/
def bfill (l : List (Option ℝ)) : List (Option ℝ) := (ffill l.reverse).reverse

/-- pandas fillna(v): every remaining missing entry becomes v. -/
def fillna (v : ℝ) (l : List (Option ℝ)) : List (Option ℝ) :=
  l.map (fun o => some (o.getD v))

/-- src/ml/features/temporal_features.py. -/
structure TemporalFeatureEngineer where
  windows : List ℕ

/-- The default window configuration (1d, 7d, 14d, 30d in hours). -/
def defaultEngineer : TemporalFeatureEngineer := ⟨[24, 168, 336, 720]⟩

/-- TemporalFeatureEngineer.extract_features: per channel and window size, the
std, range and coefficient-of-variation columns; then the two cross-channel
correlation columns; then ffill → bfill → fillna(0) applied to every column.
The result is the list of feature columns of the returned frame. -/
noncomputable def TemporalFeatureEngineer.extract_features
    (eng : TemporalFeatureEngineer) (data : RawData) : List (List (Option ℝ)) :=
  let channelCols := fun (f : ℕ → Option ℝ) =>
    eng.windows.flatMap (fun w =>
      [rollingStd f w data.n, rollingRange f w data.n,
        cvColumn (rollingStd f w data.n) (rollingMean f w data.n)])
  (channelCols data.blood_pressure ++ channelCols data.blood_glucose ++
      channelCols data.heart_rate ++ channelCols data.activity ++
      [rollingCorr data.blood_pressure data.blood_glucose 168 data.n,
        rollingCorr data.heart_rate data.activity 168 data.n]).map
    (fun col => fillna 0 (bfill (ffill col)))

lemma ffillAux_length (acc : Option ℝ) (l : List (Option ℝ)) :
    (ffillAux acc l).length = l.length := by
  induction l generalizing acc with
  | nil => rfl
  | cons o rest ih =>
    cases o with
    | some v => simp [ffillAux, ih]
    | none => simp [ffillAux, ih]

lemma ffill_length (l : List (Option ℝ)) : (ffill l).length = l.length :=
  ffillAux_length none l

lemma bfill_length (l : List (Option ℝ)) : (bfill l).length = l.length := by
  simp [bfill, ffill_length]

lemma fillna_length (v : ℝ) (l : List (Option ℝ)) : (fillna v l).length = l.length := by
  simp [fillna]

lemma fillna_isSome (v : ℝ) (l : List (Option ℝ)) :
    ∀ o ∈ fillna v l, o.isSome = true := by
  intro o ho
  rw [fillna, List.mem_map] at ho
  obtain ⟨a, -, rfl⟩ := ho
  rfl

lemma rollingStd_length (f : ℕ → Option ℝ) (w n : ℕ) : (rollingStd f w n).length = n := by
  simp [rollingStd]

lemma rollingRange_length (f : ℕ → Option ℝ) (w n : ℕ) :
    (rollingRange f w n).length = n := by
  simp [rollingRange]

lemma rollingMean_length (f : ℕ → Option ℝ) (w n : ℕ) :
    (rollingMean f w n).length = n := by
  simp [rollingMean]

lemma cvColumn_length (a b : List (Option ℝ)) :
    (cvColumn a b).length = min a.length b.length := by
  simp [cvColumn]

lemma rollingCorr_length (f g : ℕ → Option ℝ) (w n : ℕ) :
    (rollingCorr f g w n).length = n := by
  simp [rollingCorr]

lemma extract_features_base_length (eng : TemporalFeatureEngineer) (data : RawData)
    (f : ℕ → Option ℝ) (c : List (Option ℝ))
    (hc : c ∈ eng.windows.flatMap (fun w =>
      [rollingStd f w data.n, rollingRange f w data.n,
        cvColumn (rollingStd f w data.n) (rollingMean f w data.n)])) :
    c.length = data.n := by
  rw [List.mem_flatMap] at hc
  obtain ⟨w, -, hmem⟩ := hc
  simp only [List.mem_cons, List.mem_singleton] at hmem
  rcases hmem with rfl | rfl | rfl | h
  · exact rollingStd_length f w data.n
  · exact rollingRange_length f w data.n
  · rw [cvColumn_length, rollingStd_length, rollingMean_length]
    exact min_self data.n
  · cases h

/-- C5: for every input of length at least 1, extract_features produces one row
per input row (every feature column has exactly data.n entries) and the final
matrix contains no undefined entry, the missing values having been resolved by
forward-fill, backward-fill and fill-with-zero. -/
theorem C5_feature_extraction (eng : TemporalFeatureEngineer) (data : RawData)
    (hn : 1 ≤ data.n) :
    (eng.extract_features data).Forall
      (fun col => col.length = data.n ∧ col.Forall (fun o => o.isSome = true)) := by
  rw [List.forall_iff_forall_mem]
  intro col hcol
  simp only [TemporalFeatureEngineer.extract_features, List.mem_map] at hcol
  obtain ⟨c, hc, rfl⟩ := hcol
  refine ⟨?_, ?_⟩
  · rw [fillna_length, bfill_length, ffill_length]
    rw [List.mem_append] at hc
    rcases hc with hc | hc
    · rw [List.mem_append] at hc
      rcases hc with hc | hc
      · rw [List.mem_append] at hc
        rcases hc with hc | hc
        · rw [List.mem_append] at hc
          rcases hc with hc | hc
          · exact extract_features_base_length eng data _ c hc
          · exact extract_features_base_length eng data _ c hc
        · exact extract_features_base_length eng data _ c hc
      · exact extract_features_base_length eng data _ c hc
    · simp only [List.mem_cons, List.mem_singleton] at hc
      rcases hc with rfl | rfl | h
      · exact rollingCorr_length _ _ 168 data.n
      · exact rollingCorr_length _ _ 168 data.n
      · cases h
  · rw [List.forall_iff_forall_mem]
    intro o ho
    exact fillna_isSome 0 _ o ho

/-- A one-row raw frame with all channels present. -/
noncomputable def exampleOneRow : RawData :=
  ⟨1, fun _ => 0, fun _ => some 1, fun _ => some 2, fun _ => some 3, fun _ => some 4⟩

/-- Witness for C5 on a concrete one-row input. -/
theorem C5_feature_extraction_witness :
    (defaultEngineer.extract_features exampleOneRow).Forall
      (fun col => col.length = exampleOneRow.n ∧
        col.Forall (fun o => o.isSome = true)) :=
  C5_feature_extraction defaultEngineer exampleOneRow (by norm_num [exampleOneRow])

/-- sklearn StandardScaler in inference mode: per-column (x - mean) / scale,
with the parameters fitted at training time. -/
structure StandardScaler where
  mean : ℕ → ℝ
  scale : ℕ → ℝ

/-- StandardScaler.transform applied to one feature row. -/
noncomputable def StandardScaler.transform (sc : StandardScaler) (row : List ℝ) :
    List ℝ :=
  row.enum.map (fun p => (p.2 - sc.mean p.1) / sc.scale p.1)

/-- src/ml/models/isolation_forest.py. The fitted ensemble is opaque: its
decision_function is modelled as an arbitrary per-row real-valued function. -/
structure IsolationForestDetector where
  decision : List ℝ → ℝ
  scaler : StandardScaler

/-- The raw decision-function values of the scaled batch. -/
noncomputable def rawScores (det : IsolationForestDetector)
    (features : List (List ℝ)) : List ℝ :=
  (features.map det.scaler.transform).map det.decision

/-- The per-batch min-max normalization 100 * (s - min) / (max - min + 1e-6). -/
noncomputable def minMaxNormalize (scores : List ℝ) (s : ℝ) : ℝ :=
  100 * (s - listMin scores) / (listMax scores - listMin scores + 1e-6)

/-- IsolationForestDetector.predict_anomaly_score: decision-function values for
the scaled batch, min-max normalized over this very batch. -/
noncomputable def IsolationForestDetector.predict_anomaly_score
    (det : IsolationForestDetector) (features : List (List ℝ)) : List ℝ :=
  (rawScores det features).map (minMaxNormalize (rawScores det features))

lemma foldl_max_le_init (x : ℝ) (xs : List ℝ) : x ≤ xs.foldl max x := by
  induction xs generalizing x with
  | nil => exact le_refl x
  | cons y ys ih => exact le_trans (le_max_left x y) (ih (max x y))

lemma le_foldl_max (xs : List ℝ) (x : ℝ) : ∀ y ∈ xs, y ≤ xs.foldl max x := by
  induction xs generalizing x with
  | nil => intro y h; cases h
  | cons z zs ih =>
    intro y hy
    rcases List.mem_cons.mp hy with rfl | hmem
    · exact le_trans (le_max_right x y) (foldl_max_le_init _ zs)
    · exact ih (max x z) y hmem

lemma foldl_min_init_le (x : ℝ) (xs : List ℝ) : xs.foldl min x ≤ x := by
  induction xs generalizing x with
  | nil => exact le_refl x
  | cons y ys ih => exact le_trans (ih (min x y)) (min_le_left x y)

lemma foldl_min_le (xs : List ℝ) (x : ℝ) : ∀ y ∈ xs, xs.foldl min x ≤ y := by
  induction xs generalizing x with
  | nil => intro y h; cases h
  | cons z zs ih =>
    intro y hy
    rcases List.mem_cons.mp hy with rfl | hmem
    · exact le_trans (foldl_min_init_le _ zs) (min_le_right x y)
    · exact ih (min x z) y hmem

lemma foldl_max_mem (xs : List ℝ) (x : ℝ) : xs.foldl max x ∈ x :: xs := by
  induction xs generalizing x with
  | nil => exact List.mem_singleton.mpr rfl
  | cons y ys ih =>
    have h := ih (max x y)
    rcases List.mem_cons.mp h with h' | h'
    · rw [List.foldl_cons, h']
      rcases max_choice x y with hm | hm

      · rw [hm]; exact List.mem_cons_self _ _
      · rw [hm]; exact List.mem_cons_of_mem _ (List.mem_cons_self _ _)
    · rw [List.foldl_cons]
      exact List.mem_cons_of_mem _ (List.mem_cons_of_mem _ h')

lemma foldl_min_mem (xs : List ℝ) (x : ℝ) : xs.foldl min x ∈ x :: xs := by
  induction xs generalizing x with
  | nil => exact List.mem_singleton.mpr rfl
  | cons y ys ih =>
    have h := ih (min x y)
    rcases List.mem_cons.mp h with h' | h'
    · rw [List.foldl_cons, h']
      rcases min_choice x y with hm | hm
      · rw [hm]; exact List.mem_cons_self _ _
      · rw [hm]; exact List.mem_cons_of_mem _ (List.mem_cons_self _ _)
    · rw [List.foldl_cons]
      exact List.mem_cons_of_mem _ (List.mem_cons_of_mem _ h')

lemma le_listMax (l : List ℝ) (x : ℝ) (hx : x ∈ l) : x ≤ listMax l := by
  cases l with
  | nil => cases hx
  | cons y ys =>
    rcases List.mem_cons.mp hx with rfl | hmem
    · exact foldl_max_le_init x ys
    · exact le_foldl_max ys y x hmem

lemma listMin_le (l : List ℝ) (x : ℝ) (hx : x ∈ l) : listMin l ≤ x := by
  cases l with
  | nil => cases hx
  | cons y ys =>
    rcases List.mem_cons.mp hx with rfl | hmem
    · exact foldl_min_init_le x ys
    · exact foldl_min_le ys y x hmem

lemma listMin_le_listMax (l : List ℝ) (hne : l ≠ []) : listMin l ≤ listMax l := by
  cases l with
  | nil => exact absurd rfl hne
  | cons y ys =>
    exact le_trans (listMin_le (y :: ys) y (List.mem_cons_self y ys))
      (le_listMax (y :: ys) y (List.mem_cons_self y ys))

lemma minMaxNormalize_den_pos (scores : List ℝ) (hne : scores ≠ []) :
    0 < listMax scores - listMin scores + 1e-6 := by
  have h := listMin_le_listMax scores hne
  have : (0 : ℝ) < 1e-6 := by norm_num
  linarith

lemma minMaxNormalize_mem_bounds (scores : List ℝ) (hne : scores ≠ []) (s : ℝ)
    (hs : s ∈ scores) : 0 ≤ minMaxNormalize scores s ∧ minMaxNormalize scores s < 100 := by
  have hden := minMaxNormalize_den_pos scores hne
  have hlo := listMin_le scores s hs
  have hhi := le_listMax scores s hs
  constructor
  · apply div_nonneg _ (le_of_lt hden)
    nlinarith
  · rw [minMaxNormalize, div_lt_iff₀ hden]
    nlinarith

/-- C6: the Short-Horizon Detector normalizes the raw decision values over the
batch being scored via 100 * (s - min) / (max - min + 1e-6); the denominator is
strictly positive even on a degenerate batch, every output is a well-defined
value in [0,100], the most anomalous (minimum) raw score maps to 0, and when
the batch has any real spread (max - min at least 1e-3) the least anomalous
raw score maps to at least 99. -/
theorem C6_isolation_batch_normalization (det : IsolationForestDetector)
    (features : List (List ℝ)) (hne : features ≠ []) :
    det.predict_anomaly_score features =
      (rawScores det features).map (fun s =>
        100 * (s - listMin (rawScores det features)) /
          (listMax (rawScores det features) - listMin (rawScores det features) + 1e-6))
    ∧ 0 < listMax (rawScores det features) - listMin (rawScores det features) + 1e-6
    ∧ minMaxNormalize (rawScores det features) (listMin (rawScores det features)) = 0
    ∧ ((1e-3 : ℝ) ≤ listMax (rawScores det features) - listMin (rawScores det features) →
        99 ≤ minMaxNormalize (rawScores det features) (listMax (rawScores det features)))
    ∧ (det.predict_anomaly_score features).Forall (fun v => 0 ≤ v ∧ v ≤ 100) := by
  have hraw : rawScores det features ≠ [] := by
    rw [rawScores]
    simp [hne]
  have hden := minMaxNormalize_den_pos _ hraw
  refine ⟨rfl, hden, ?_, ?_, ?_⟩
  · rw [minMaxNormalize, sub_self, mul_zero, zero_div]
  · intro hspread
    rw [minMaxNormalize, le_div_iff₀ hden]
    nlinarith
  · rw [List.forall_iff_forall_mem]
    intro v hv
    rw [IsolationForestDetector.predict_anomaly_score, List.mem_map] at hv
    obtain ⟨s, hs, rfl⟩ := hv
    have h := minMaxNormalize_mem_bounds _ hraw s hs
    exact ⟨h.1, le_of_lt (lt_of_lt_of_le h.2 (by norm_num))⟩

/-- A concrete detector whose decision function reads the first feature. -/
noncomputable def exampleDetector : IsolationForestDetector :=
  ⟨fun row => row.headD 0, ⟨fun _ => 0, fun _ => 1⟩⟩

/-- Witness for C6 on a concrete two-row batch. -/
theorem C6_isolation_batch_normalization_witness :
    exampleDetector.predict_anomaly_score [[1], [3]] =
      (rawScores exampleDetector [[1], [3]]).map (fun s =>
        100 * (s - listMin (rawScores exampleDetector [[1], [3]])) /
          (listMax (rawScores exampleDetector [[1], [3]]) -
            listMin (rawScores exampleDetector [[1], [3]]) + 1e-6))
    ∧ 0 < listMax (rawScores exampleDetector [[1], [3]]) -
        listMin (rawScores exampleDetector [[1], [3]]) + 1e-6
    ∧ minMaxNormalize (rawScores exampleDetector [[1], [3]])
        (listMin (rawScores exampleDetector [[1], [3]])) = 0
    ∧ ((1e-3 : ℝ) ≤ listMax (rawScores exampleDetector [[1], [3]]) -
          listMin (rawScores exampleDetector [[1], [3]]) →
        99 ≤ minMaxNormalize (rawScores exampleDetector [[1], [3]])
          (listMax (rawScores exampleDetector [[1], [3]])))
    ∧ (exampleDetector.predict_anomaly_score [[1], [3]]).Forall
        (fun v => 0 ≤ v ∧ v ≤ 100) :=
  C6_isolation_batch_normalization exampleDetector [[1], [3]] (by simp)

/-- C9: the normalized isolation output lies in [0,100): the minimum raw score
maps to exactly 0, the maximum maps to 100 * (max - min) / (max - min + 1e-6)
which is strictly below 100, every output is in [0,100), and a batch whose raw
decision values are all identical returns 0 everywhere. -/
theorem C9_isolation_never_reaches_100 (det : IsolationForestDetector)
    (features : List (List ℝ)) (hne : features ≠ []) :
    minMaxNormalize (rawScores det features) (listMin (rawScores det features)) = 0
    ∧ minMaxNormalize (rawScores det features) (listMax (rawScores det features)) =
        100 * (listMax (rawScores det features) - listMin (rawScores det features)) /
          (listMax (rawScores det features) - listMin (rawScores det features) + 1e-6)
    ∧ minMaxNormalize (rawScores det features) (listMax (rawScores det features)) < 100
    ∧ (det.predict_anomaly_score features).Forall (fun v => 0 ≤ v ∧ v < 100)
    ∧ (∀ c : ℝ, (∀ a ∈ rawScores det features, a = c) →
        (det.predict_anomaly_score features).Forall (fun v => v = 0)) := by
  have hraw : rawScores det features ≠ [] := by
    rw [rawScores]
    simp [hne]
  have hden := minMaxNormalize_den_pos _ hraw
  have hmaxmem : listMax (rawScores det features) ∈ rawScores det features := by
    cases hl : rawScores det features with
    | nil => exact absurd hl hraw
    | cons y ys =>
      have : listMax (y :: ys) ∈ y :: ys := by
        rw [listMax]
        exact foldl_max_mem ys y
      exact this
  refine ⟨?_, rfl, ?_, ?_, ?_⟩
  · rw [minMaxNormalize, sub_self, mul_zero, zero_div]
  · exact (minMaxNormalize_mem_bounds _ hraw _ hmaxmem).2
  · rw [List.forall_iff_forall_mem]
    intro v hv
    rw [IsolationForestDetector.predict_anomaly_score, List.mem_map] at hv
    obtain ⟨s, hs, rfl⟩ := hv
    exact minMaxNormalize_mem_bounds _ hraw s hs
  · intro c hc
    rw [List.forall_iff_forall_mem]
    intro v hv
    rw [IsolationForestDetector.predict_anomaly_score, List.mem_map] at hv
    obtain ⟨s, hs, rfl⟩ := hv
    have hminmem : listMin (rawScores det features) ∈ rawScores det features := by
      cases hl : rawScores det features with
      | nil => exact absurd hl hraw
      | cons y ys =>
        have : listMin (y :: ys) ∈ y :: ys := by
          rw [listMin]
          exact foldl_min_mem ys y
        exact this
    rw [minMaxNormalize, hc s hs, hc _ hminmem, sub_self, mul_zero, zero_div]

/-- Witness for C9 on a concrete two-row batch. -/
theorem C9_isolation_never_reaches_100_witness :
    minMaxNormalize (rawScores exampleDetector [[2], [5]])
        (listMin (rawScores exampleDetector [[2], [5]])) = 0
    ∧ minMaxNormalize (rawScores exampleDetector [[2], [5]])
        (listMax (rawScores exampleDetector [[2], [5]])) =
        100 * (listMax (rawScores exampleDetector [[2], [5]]) -
            listMin (rawScores exampleDetector [[2], [5]])) /
          (listMax (rawScores exampleDetector [[2], [5]]) -
            listMin (rawScores exampleDetector [[2], [5]]) + 1e-6)
    ∧ minMaxNormalize (rawScores exampleDetector [[2], [5]])
        (listMax (rawScores exampleDetector [[2], [5]])) < 100
    ∧ (exampleDetector.predict_anomaly_score [[2], [5]]).Forall
        (fun v => 0 ≤ v ∧ v < 100)
    ∧ (∀ c : ℝ, (∀ a ∈ rawScores exampleDetector [[2], [5]], a = c) →
        (exampleDetector.predict_anomaly_score [[2], [5]]).Forall (fun v => v = 0)) :=
  C9_isolation_never_reaches_100 exampleDetector [[2], [5]] (by simp)

/-- src/ml/models/lstm_autoencoder.py in inference mode. The trained network
is opaque: modelled as an arbitrary sequence-to-sequence function. The
reconstruction_errors field stores the errors of the latest scoring call
(assigned at the end of predict_anomaly_score). -/
structure LSTMAutoencoder where
  sequence_length : ℕ
  net : List (List ℝ) → List (List ℝ)
  scaler : StandardScaler
  mean_baseline_error : ℝ
  std_baseline_error : ℝ
  error_threshold_95 : ℝ
  error_threshold_99 : ℝ
  reconstruction_errors : List ℝ

/-- np.mean(np.square(a - b)) over equally-shaped nested arrays: the sum of
squared entrywise differences divided by the number of entries. -/
noncomputable def mseError (a b : List (List ℝ)) : ℝ :=
  ((a.zip b).map (fun rows =>
      ((rows.1.zip rows.2).map (fun p => (p.1 - p.2) ^ 2)).sum)).sum /
    ((((a.zip b).map (fun rows => (rows.1.zip rows.2).length)).sum : ℕ) : ℝ)

/-- Conversion of a reconstruction error to a 0-100 stability score using the
baseline statistics: z = (error - mean)/(std + 1e-6),
score = clip(100 * exp(-max(0, z) / 2), 0, 100). -/
noncomputable def lstmScoreOfError (error mean_err std_err : ℝ) : ℝ :=
  npClip (100 * Real.exp (-(max 0 ((error - mean_err) / (std_err + 1e-6))) / 2)) 0 100

/-- The trailing sequence of length L ending at row i
(features_scaled[i - L + 1 : i + 1]). -/
def trailingSequence (rows : List (List ℝ)) (L i : ℕ) : List (List ℝ) :=
  (rows.drop (i + 1 - L)).take L

/-- LSTMAutoencoder.predict_anomaly_score: while fewer than sequence_length - 1
prior rows exist, emit the sentinel score 100 and reconstruction error 0;
otherwise score the mean-squared reconstruction error of the trailing
sequence_length-row window. Returns the updated detector (with
reconstruction_errors assigned) together with the scores. -/
noncomputable def LSTMAutoencoder.predict_anomaly_score
    (st : LSTMAutoencoder) (features : List (List ℝ)) :
    LSTMAutoencoder × List ℝ :=
  let features_scaled := features.map st.scaler.transform
  let results := (List.range features_scaled.length).map (fun i =>
    if i < st.sequence_length - 1 then ((100 : ℝ), (0 : ℝ))
    else
      let sequence := trailingSequence features_scaled st.sequence_length i
      let reconstruction := st.net sequence
      let error := mseError sequence reconstruction
      (lstmScoreOfError error st.mean_baseline_error st.std_baseline_error, error))
  ({st with reconstruction_errors := results.map Prod.snd}, results.map Prod.fst)

/-- The per-row (score, error) pair computed by predict_anomaly_score. -/
noncomputable def lstmRowResult (st : LSTMAutoencoder) (features : List (List ℝ))
    (i : ℕ) : ℝ × ℝ :=
  if i < st.sequence_length - 1 then ((100 : ℝ), (0 : ℝ))
  else
    let sequence := trailingSequence (features.map st.scaler.transform)
      st.sequence_length i
    let error := mseError sequence (st.net sequence)
    (lstmScoreOfError error st.mean_baseline_error st.std_baseline_error, error)

lemma lstm_predict_eq (st : LSTMAutoencoder) (features : List (List ℝ)) :
    st.predict_anomaly_score features =
      ({st with reconstruction_errors :=
          ((List.range features.length).map (lstmRowResult st features)).map Prod.snd},
        ((List.range features.length).map (lstmRowResult st features)).map Prod.fst) := by
  rw [LSTMAutoencoder.predict_anomaly_score]
  simp only [List.length_map]
  rfl

lemma lstm_scores_get (st : LSTMAutoencoder) (features : List (List ℝ)) (i : ℕ)
    (hin : i < features.length) :
    (st.predict_anomaly_score features).2.get? i = some (lstmRowResult st features i).1 ∧
    (st.predict_anomaly_score features).1.reconstruction_errors.get? i =
      some (lstmRowResult st features i).2 := by
  rw [lstm_predict_eq]
  constructor
  · simp [List.get?_eq_getElem?, List.getElem?_map, List.getElem?_range hin]
  · simp [List.get?_eq_getElem?, List.getElem?_map, List.getElem?_range hin]

/-- C3: every row with fewer than sequence_length - 1 prior rows receives the
sentinel stability score 100 and reconstruction error 0, regardless of the
row's feature values. -/
theorem C3_sentinel_rows (st : LSTMAutoencoder) (features : List (List ℝ)) (i : ℕ)
    (hi : i < st.sequence_length - 1) (hin : i < features.length) :
    (st.predict_anomaly_score features).2.get? i = some 100 ∧
    (st.predict_anomaly_score features).1.reconstruction_errors.get? i = some 0 := by
  have h := lstm_scores_get st features i hin
  rw [lstmRowResult, if_pos hi] at h
  exact h

/-- An LSTM detector state with the default sequence length 168 and an
identity network. -/
noncomputable def exampleLSTM : LSTMAutoencoder :=
  ⟨168, id, ⟨fun _ => 0, fun _ => 1⟩, 0, 0, 0, 0, []⟩

/-- Witness for C3: the first row of a one-row input is a sentinel row. -/
theorem C3_sentinel_rows_witness :
    (exampleLSTM.predict_anomaly_score [[5]]).2.get? 0 = some 100 ∧
    (exampleLSTM.predict_anomaly_score [[5]]).1.reconstruction_errors.get? 0 =
      some 0 :=
  C3_sentinel_rows exampleLSTM [[5]] 0 (by norm_num [exampleLSTM]) (by simp)

lemma npClip_mono (x y : ℝ) (h : x ≤ y) : npClip x 0 100 ≤ npClip y 0 100 := by
  unfold npClip
  exact min_le_min (le_refl 100) (max_le_max (le_refl 0) h)

lemma lstmScoreOfError_at_baseline (e m s : ℝ) (hs : 0 ≤ s) (he : e ≤ m) :
    lstmScoreOfError e m s = 100 := by
  have hden : (0 : ℝ) < s + 1e-6 := by
    have : (0 : ℝ) < 1e-6 := by norm_num
    linarith
  have hz : (e - m) / (s + 1e-6) ≤ 0 :=
    div_nonpos_of_nonpos_of_nonneg (by linarith) (le_of_lt hden)
  rw [lstmScoreOfError, max_eq_left hz]
  norm_num [npClip]

lemma lstmScoreOfError_antitone (e₁ e₂ m s : ℝ) (hs : 0 ≤ s) (h : e₁ ≤ e₂) :
    lstmScoreOfError e₂ m s ≤ lstmScoreOfError e₁ m s := by
  have hden : (0 : ℝ) < s + 1e-6 := by
    have : (0 : ℝ) < 1e-6 := by norm_num
    linarith
  apply npClip_mono
  have hzz : max 0 ((e₁ - m) / (s + 1e-6)) ≤ max 0 ((e₂ - m) / (s + 1e-6)) :=
    max_le_max (le_refl 0) ((div_le_div_iff_of_pos_right hden).mpr (by linarith))
  have hexp : Real.exp (-(max 0 ((e₂ - m) / (s + 1e-6))) / 2) ≤
      Real.exp (-(max 0 ((e₁ - m) / (s + 1e-6))) / 2) :=
    Real.exp_le_exp.mpr (by linarith)
  linarith

/-- C4: for every row with at least sequence_length - 1 prior rows, the score
is the baseline-normalized exponential-decay transform of the mean-squared
reconstruction error of the trailing sequence (clamped to [0,100] with decay
constant 2), the reconstruction error is recorded as that MSE, an error at or
below the baseline mean maps to exactly 100, and the transform is monotone
decreasing in the error. -/
theorem C4_reconstruction_scoring (st : LSTMAutoencoder) (features : List (List ℝ))
    (i : ℕ) (hiL : st.sequence_length - 1 ≤ i) (hin : i < features.length)
    (hstd : 0 ≤ st.std_baseline_error) :
    (st.predict_anomaly_score features).2.get? i =
      some (lstmScoreOfError
        (mseError
          (trailingSequence (features.map st.scaler.transform) st.sequence_length i)
          (st.net (trailingSequence (features.map st.scaler.transform)
            st.sequence_length i)))
        st.mean_baseline_error st.std_baseline_error)
    ∧ (st.predict_anomaly_score features).1.reconstruction_errors.get? i =
      some (mseError
        (trailingSequence (features.map st.scaler.transform) st.sequence_length i)
        (st.net (trailingSequence (features.map st.scaler.transform)
          st.sequence_length i)))
    ∧ (∀ e, e ≤ st.mean_baseline_error →
        lstmScoreOfError e st.mean_baseline_error st.std_baseline_error = 100)
    ∧ (∀ e₁ e₂, e₁ ≤ e₂ →
        lstmScoreOfError e₂ st.mean_baseline_error st.std_baseline_error ≤
          lstmScoreOfError e₁ st.mean_baseline_error st.std_baseline_error) := by
  have h := lstm_scores_get st features i hin
  rw [lstmRowResult, if_neg (not_lt.mpr hiL)] at h
  refine ⟨h.1, h.2, ?_, ?_⟩
  · intro e he
    exact lstmScoreOfError_at_baseline e st.mean_baseline_error
      st.std_baseline_error hstd he
  · intro e₁ e₂ h12
    exact lstmScoreOfError_antitone e₁ e₂ st.mean_baseline_error
      st.std_baseline_error hstd h12

/-- An LSTM detector state with sequence length 1 and an identity network. -/
noncomputable def exampleLSTMshort : LSTMAutoencoder :=
  ⟨1, id, ⟨fun _ => 0, fun _ => 1⟩, 0, 0, 0, 0, []⟩

/-- Witness for C4 on a one-row input with sequence length 1. -/
theorem C4_reconstruction_scoring_witness :
    (exampleLSTMshort.predict_anomaly_score [[5]]).2.get? 0 =
      some (lstmScoreOfError
        (mseError
          (trailingSequence ([[5]].map exampleLSTMshort.scaler.transform)
            exampleLSTMshort.sequence_length 0)
          (exampleLSTMshort.net (trailingSequence
            ([[5]].map exampleLSTMshort.scaler.transform)
            exampleLSTMshort.sequence_length 0)))
        exampleLSTMshort.mean_baseline_error exampleLSTMshort.std_baseline_error)
    ∧ (exampleLSTMshort.predict_anomaly_score [[5]]).1.reconstruction_errors.get? 0 =
      some (mseError
        (trailingSequence ([[5]].map exampleLSTMshort.scaler.transform)
          exampleLSTMshort.sequence_length 0)
        (exampleLSTMshort.net (trailingSequence
          ([[5]].map exampleLSTMshort.scaler.transform)
          exampleLSTMshort.sequence_length 0)))
    ∧ (∀ e, e ≤ exampleLSTMshort.mean_baseline_error →
        lstmScoreOfError e exampleLSTMshort.mean_baseline_error
          exampleLSTMshort.std_baseline_error = 100)
    ∧ (∀ e₁ e₂, e₁ ≤ e₂ →
        lstmScoreOfError e₂ exampleLSTMshort.mean_baseline_error
            exampleLSTMshort.std_baseline_error ≤
          lstmScoreOfError e₁ exampleLSTMshort.mean_baseline_error
            exampleLSTMshort.std_baseline_error) :=
  C4_reconstruction_scoring exampleLSTMshort [[5]] 0
    (by norm_num [exampleLSTMshort]) (by simp)
    (by norm_num [exampleLSTMshort])

/-- Row-major view of the post-fill feature frame handed to the detectors.
After fillna(0) every entry of the frame is present (C5), so the default 0 of
the Option unwrap is never observed. -/
noncomputable def rowsOf (n : ℕ) (cols : List (List (Option ℝ))) : List (List ℝ) :=
  (List.range n).map (fun i => cols.map (fun c => (c.getD i none).getD 0))

/-- src/ml/system/sdd_system.py: the orchestrator owning one instance of each
component. -/
structure SDDSystem where
  feature_engineer : TemporalFeatureEngineer
  isolation_detector : IsolationForestDetector
  lstm_detector : LSTMAutoencoder
  stability_scorer : HealthStabilityScorer

/-- The dictionary returned by SDDSystem.predict. -/
structure SDDResults where
  isolation_scores : List ℝ
  lstm_scores : List ℝ
  health_stability_score : List ℝ
  features : List (List (Option ℝ))
  reconstruction_errors : List ℝ

/-- SDDSystem.predict: extract features once, run both detectors on the same
feature matrix, fuse the scores. Returns the post-call system (the LSTM
detector has had its reconstruction_errors field reassigned) together with
the results. -/
noncomputable def SDDSystem.predict (s : SDDSystem) (data : RawData) :
    SDDSystem × SDDResults :=
  let features := s.feature_engineer.extract_features data
  let featureRows := rowsOf data.n features
  let isolation_scores := s.isolation_detector.predict_anomaly_score featureRows
  let lstmRun := s.lstm_detector.predict_anomaly_score featureRows
  let health := s.stability_scorer.calculate_score isolation_scores lstmRun.2
  ({s with lstm_detector := lstmRun.1},
    ⟨isolation_scores, lstmRun.2, health, features, lstmRun.1.reconstruction_errors⟩)

lemma SDDSystem.predict_fst (s : SDDSystem) (data : RawData) :
    (s.predict data).1 = {s with lstm_detector :=
      (s.lstm_detector.predict_anomaly_score
        (rowsOf data.n (s.feature_engineer.extract_features data))).1} := rfl

lemma SDDSystem.predict_lstm_scores (s : SDDSystem) (data : RawData) :
    (s.predict data).2.lstm_scores =
      (s.lstm_detector.predict_anomaly_score
        (rowsOf data.n (s.feature_engineer.extract_features data))).2 := rfl

lemma SDDSystem.predict_rec_errors (s : SDDSystem) (data : RawData) :
    (s.predict data).2.reconstruction_errors =
      (s.lstm_detector.predict_anomaly_score
        (rowsOf data.n (s.feature_engineer.extract_features data))).1.reconstruction_errors :=
  rfl

lemma SDDSystem.predict_health (s : SDDSystem) (data : RawData) :
    (s.predict data).2.health_stability_score =
      s.stability_scorer.calculate_score
        (s.isolation_detector.predict_anomaly_score
          (rowsOf data.n (s.feature_engineer.extract_features data)))
        ((s.lstm_detector.predict_anomaly_score
          (rowsOf data.n (s.feature_engineer.extract_features data))).2) := rfl

/-- A fully-loaded system: default engineer and scorer, the example detector
and the example LSTM state (freshly loaded, no scoring call yet). -/
noncomputable def exampleSystem : SDDSystem :=
  ⟨defaultEngineer, exampleDetector, exampleLSTM, defaultScorer⟩

lemma rowsOf_length (n : ℕ) (cols : List (List (Option ℝ))) :
    (rowsOf n cols).length = n := by
  simp [rowsOf]

/-- C8 counterexample: SDDSystem.predict does change a component field. On a
freshly-loaded system (reconstruction_errors = []) a predict call over a
one-row frame leaves the system with reconstruction_errors = [0], so the
post-call system differs from the pre-call one. -/
theorem C8_predict_mutates_counterexample :
    (exampleSystem.predict exampleOneRow).1 ≠ exampleSystem := by
  intro h
  have hlen : (rowsOf exampleOneRow.n
      (exampleSystem.feature_engineer.extract_features exampleOneRow)).length = 1 := by
    rw [rowsOf_length]
    rfl
  have hval : (exampleSystem.predict exampleOneRow).1.lstm_detector.reconstruction_errors
      = [0] := by
    rw [SDDSystem.predict_fst, lstm_predict_eq]
    have h0 : lstmRowResult exampleSystem.lstm_detector
        (rowsOf exampleOneRow.n
          (exampleSystem.feature_engineer.extract_features exampleOneRow)) 0 =
        (100, 0) := by
      rw [lstmRowResult, if_pos]
      show (0 : ℕ) < 168 - 1
      norm_num
    simp only [hlen, List.map_map]
    rw [show List.range 1 = [0] from rfl]
    simp [h0]
  have h2 : (exampleSystem.predict exampleOneRow).1.lstm_detector.reconstruction_errors
      = exampleSystem.lstm_detector.reconstruction_errors := by rw [h]
  rw [hval] at h2
  have h3 : exampleSystem.lstm_detector.reconstruction_errors = ([] : List ℝ) := rfl
  rw [h3] at h2
  exact List.cons_ne_nil 0 [] h2

/-- C8 amended: predict mutates no trained parameter — the feature engineer,
isolation detector (model and scaler), stability scorer and every trained
field of the LSTM detector (sequence length, network, scaler, baseline
statistics and thresholds) are unchanged — and a second predict call on the
same data returns exactly the same state and results, so results are
independent of earlier calls; the only field predict overwrites is the LSTM
detector's reconstruction_errors scratch output. -/
theorem C8_predict_preserves_trained_parameters (s : SDDSystem) (data : RawData) :
    (s.predict data).1.feature_engineer = s.feature_engineer
    ∧ (s.predict data).1.isolation_detector = s.isolation_detector
    ∧ (s.predict data).1.stability_scorer = s.stability_scorer
    ∧ (s.predict data).1.lstm_detector.sequence_length =
        s.lstm_detector.sequence_length
    ∧ (s.predict data).1.lstm_detector.net = s.lstm_detector.net
    ∧ (s.predict data).1.lstm_detector.scaler = s.lstm_detector.scaler
    ∧ (s.predict data).1.lstm_detector.mean_baseline_error =
        s.lstm_detector.mean_baseline_error
    ∧ (s.predict data).1.lstm_detector.std_baseline_error =
        s.lstm_detector.std_baseline_error
    ∧ (s.predict data).1.lstm_detector.error_threshold_95 =
        s.lstm_detector.error_threshold_95
    ∧ (s.predict data).1.lstm_detector.error_threshold_99 =
        s.lstm_detector.error_threshold_99
    ∧ (s.predict data).1.predict data = s.predict data := by
  refine ⟨rfl, rfl, rfl, rfl, rfl, rfl, rfl, rfl, rfl, rfl, rfl⟩

/-- The per-request output record of the prediction service. -/
structure PredictionOutput where
  healthStabilityScore : ℝ
  isolationScore : ℝ
  lstmScore : ℝ
  reconstructionError : Option ℝ
  riskCategory : String
  timestamp : ℚ

/-- convert_to_dataframe from prediction_service.py: sort readings by
timestamp (stable sort), then forward-fill, backward-fill and zero-fill each
sensor channel, producing the rectangular raw frame consumed by the
pipeline. -/
noncomputable def convert_to_dataframe (readings : List SensorReading) : RawData :=
  let sorted := readings.insertionSort
    (fun a b => a.timestamp.getD 0 ≤ b.timestamp.getD 0)
  let chan := fun (proj : SensorReading → Option ℝ) (i : ℕ) =>
    (fillna 0 (bfill (ffill (sorted.map proj)))).getD i none
  ⟨readings.length,
    fun i => (sorted.getD i ⟨none, none, none, none, none⟩).timestamp.getD 0,
    chan (fun r => r.bloodPressure), chan (fun r => r.bloodGlucose),
    chan (fun r => r.heartRate), chan (fun r => r.activity)⟩

/-- predict_anomaly_score from prediction_service.py: validate the rolling
window at min_hours = 168 (an invalid window raises ValueError, modelled as
an error result), convert the readings to a frame, run the full pipeline, and
return the scores of the most recent reading; a last-row reconstruction error
that is not strictly positive is reported as null. -/
noncomputable def PredictionService.predict_anomaly_score (sys : SDDSystem)
    (readings : List SensorReading) : Except String PredictionOutput :=
  if (validate_rolling_window readings 168).1 = false then
    Except.error ("Invalid rolling window: " ++
      ((validate_rolling_window readings 168).2.getD ""))
  else
    let data := convert_to_dataframe readings
    let results := (sys.predict data).2
    let last_idx := results.health_stability_score.length - 1
    let err := results.reconstruction_errors.getD last_idx 0
    Except.ok
      ⟨results.health_stability_score.getD last_idx 0,
        results.isolation_scores.getD last_idx 0,
        results.lstm_scores.getD last_idx 0,
        if 0 < err then some err else none,
        defaultScorer.interpret_score
          (results.health_stability_score.getD last_idx 0),
        data.timestamps last_idx⟩

lemma isolation_predict_length (det : IsolationForestDetector)
    (rows : List (List ℝ)) :
    (det.predict_anomaly_score rows).length = rows.length := by
  simp [IsolationForestDetector.predict_anomaly_score, rawScores]

lemma lstm_two_sentinel (st : LSTMAutoencoder) (rows : List (List ℝ))
    (hlen : rows.length = 2) (hL : 1 < st.sequence_length - 1) :
    (st.predict_anomaly_score rows).2 = [100, 100] ∧
    (st.predict_anomaly_score rows).1.reconstruction_errors = [0, 0] := by
  have h0 : lstmRowResult st rows 0 = (100, 0) := by
    rw [lstmRowResult, if_pos (lt_trans Nat.zero_lt_one hL)]
  have h1 : lstmRowResult st rows 1 = (100, 0) := by
    rw [lstmRowResult, if_pos hL]
  constructor
  · rw [lstm_predict_eq]
    simp only [hlen, List.map_map]
    rw [show List.range 2 = [0, 1] from rfl]
    simp [h0, h1]
  · rw [lstm_predict_eq]
    simp only [hlen, List.map_map]
    rw [show List.range 2 = [0, 1] from rfl]
    simp [h0, h1]

/-- C10: the two-reading input spanning exactly 168 hours passes validation,
yet its feature matrix has fewer rows than sequence_length, so every row —
including the most recent one — receives the insufficient-history sentinel:
the service returns lstmScore = 100 and reconstructionError = null for the
most recent reading. Passing validation does not guarantee a non-sentinel
long-horizon score. -/
theorem C10_validation_does_not_preclude_sentinel :
    (validate_rolling_window readingsSpan168 168).1 = true
    ∧ (rowsOf (convert_to_dataframe readingsSpan168).n
        (exampleSystem.feature_engineer.extract_features
          (convert_to_dataframe readingsSpan168))).length <
        exampleSystem.lstm_detector.sequence_length
    ∧ (PredictionService.predict_anomaly_score exampleSystem readingsSpan168).map
        (fun o => (o.lstmScore, o.reconstructionError)) =
        Except.ok ((100 : ℝ), (none : Option ℝ)) := by
  have hn : (convert_to_dataframe readingsSpan168).n = 2 := rfl
  have hrows : (rowsOf (convert_to_dataframe readingsSpan168).n
      (exampleSystem.feature_engineer.extract_features
        (convert_to_dataframe readingsSpan168))).length = 2 := by
    rw [rowsOf_length, hn]
  have hseq : exampleSystem.lstm_detector.sequence_length = 168 := rfl
  refine ⟨validate_span168_ok, ?_, ?_⟩
  · rw [hrows, hseq]
    norm_num
  · have hsent := lstm_two_sentinel exampleSystem.lstm_detector _ hrows
      (by rw [hseq]; norm_num)
    have hlst : (exampleSystem.predict (convert_to_dataframe readingsSpan168)).2.lstm_scores
        = [100, 100] := by
      rw [SDDSystem.predict_lstm_scores]
      exact hsent.1
    have herr : (exampleSystem.predict
        (convert_to_dataframe readingsSpan168)).2.reconstruction_errors = [0, 0] := by
      rw [SDDSystem.predict_rec_errors]
      exact hsent.2
    have hhl : (exampleSystem.predict
        (convert_to_dataframe readingsSpan168)).2.health_stability_score.length = 2 := by
      rw [SDDSystem.predict_health, HealthStabilityScorer.calculate_score,
        List.length_zipWith, isolation_predict_length, hrows, hsent.1]
      rfl
    rw [PredictionService.predict_anomaly_score, validate_span168_ok]
    rw [if_neg (by simp)]
    simp only [hlst, herr, hhl, Except.map]
    norm_num

end AlertCare
